import Mathlib

/-!
Shallow embedding of the chat-session manager in the App component
(src/unnamed/part_000) and its data model (src/types.ts).

State held in React useState hooks becomes an explicit AppState record.
Each event handler becomes a pure function from the pre-call state (plus
the nondeterministic inputs the handler consumes: generated UUIDs, clock
readings, and the result of the remote completion request) to the
post-call state together with a trace of external effects.  An effect
records each call to the persistence layer (saveSessionToSupabase, with a
flag recording whether the source awaits the call before continuing) and
each call to the completion client (sendMessageToGemini, with its two
arguments).  Presentation-only state (sidebar visibility, settings modal,
scroll ref) is omitted; the view field is kept because handlers set it.

JavaScript string slice on ASCII text is modelled by taking a prefix of
the character list.  The source calls Date.now() at six distinct points in
handleSendMessage; each reading is a separate field of SendEnv.
-/

deriving instance DecidableEq for Except

namespace ChatApp

/-- Role of a chat message, from src/types.ts. -/
inductive Role where
  | user
  | assistant
deriving DecidableEq, Repr

/-- Message record, from src/types.ts. -/
structure Message where
  id : String
  role : Role
  content : String
  timestamp : Nat
deriving DecidableEq, Repr

/-- ChatSession record, from src/types.ts. -/
structure ChatSession where
  id : String
  title : String
  messages : List Message
  updatedAt : Nat
deriving DecidableEq, Repr

/-- User record, from src/types.ts. -/
structure User where
  email : String
  name : String
deriving DecidableEq, Repr

/-- AppView, from src/types.ts. -/
inductive AppView where
  | chat
  | workspace
deriving DecidableEq, Repr

/-- The useState hooks of the App component that the session manager
mutates: user, sessions, currentSessionId, isLoading, view. -/
structure AppState where
  user : Option User
  sessions : List ChatSession
  currentSessionId : Option String
  isLoading : Bool
  view : AppView
deriving DecidableEq, Repr

/-- External effects emitted by a handler, in program order.  save records
a call to saveSessionToSupabase together with whether the source awaits
it; gemini records a call to sendMessageToGemini with its two arguments;
logError records console.error on the catch path. -/
inductive Effect where
  | save (s : ChatSession) (awaited : Bool)
  | gemini (history : List Message) (newContent : String)
  | logError
deriving DecidableEq, Repr

/-- JavaScript s.slice(0, n) on ASCII text: the first n characters. -/
def jsSlice (s : String) (n : Nat) : String :=
  String.mk (s.toList.take n)

/-- The user field of a supabase auth session, as read by the App:
session.user.email and session.user.user_metadata.full_name, each
possibly absent. -/
structure SupaUser where
  email : Option String
  fullName : Option String
deriving DecidableEq, Repr

/-- A supabase auth session as consumed by onAuthStateChange. -/
structure SupaSession where
  user : SupaUser
deriving DecidableEq, Repr

/-- The onAuthStateChange callback, part_000 lines 48-59: with a session,
set the user from it (email defaulting to "", name to "User"); with none,
clear user, sessions and currentSessionId. -/
def onAuthStateChange (st : AppState) (session : Option SupaSession) : AppState :=
  match session with
  | some s =>
      { st with
          user := some { email := s.user.email.getD ""
                         name := s.user.fullName.getD "User" } }
  | none =>
      { st with user := none, sessions := [], currentSessionId := none }

/-- The falsiness test JavaScript applies to currentSessionId in
fetchSessions (!currentSessionId): true for null and for the empty
string. -/
def isFalsyId : Option String → Bool
  | none => true
  | some s => s == ""

/-- fetchSessions, part_000 lines 64-84, applied to the result of the
supabase read (ordered most-recently-updated first by the query).  On
error only a log happens; on success the session list is replaced and,
when the list is non-empty and no session is current, the first fetched
session becomes current. -/
def fetchSessions (st : AppState) (result : Except Unit (List ChatSession)) :
    AppState :=
  match result with
  | Except.error _ => st
  | Except.ok data =>
      let st1 := { st with sessions := data }
      match data with
      | [] => st1
      | d :: _ =>
          if isFalsyId st.currentSessionId then
            { st1 with currentSessionId := some d.id }
          else st1

/-- handleNewChat, part_000 lines 115-128: sets the chat view, creates a
session with a fresh id, title "New Chat", no messages and the current
time, makes it current, prepends it to the list, and fires the
persistence write without awaiting it. -/
def handleNewChat (st : AppState) (id : String) (now : Nat) :
    AppState × List Effect :=
  let newSession : ChatSession :=
    { id := id, title := "New Chat", messages := [], updatedAt := now }
  ({ st with
      view := AppView.chat
      currentSessionId := some id
      sessions := newSession :: st.sessions },
   [Effect.save newSession false])

/-- The onSelectSession callback passed to the Sidebar, part_000 lines
206-210: sets the chat view and the current session id. -/
def onSelectSession (st : AppState) (id : String) : AppState :=
  { st with view := AppView.chat, currentSessionId := some id }

/-- The nondeterministic inputs one handleSendMessage call consumes: the
three crypto.randomUUID() results (new session, user message, assistant
message), the six Date.now() readings in source order, and the outcome of
the awaited sendMessageToGemini call. -/
structure SendEnv where
  newSessionId : String
  userMsgId : String
  aiMsgId : String
  nowNewSession : Nat
  nowUserMsg : Nat
  nowFallback : Nat
  nowUpdate : Nat
  nowAi : Nat
  nowFinal : Nat
  completion : Except Unit String
deriving DecidableEq, Repr

/-- The user message a handleSendMessage call builds, part_000 lines
148-153. -/
def mkUserMessage (env : SendEnv) (content : String) : Message :=
  { id := env.userMsgId, role := Role.user, content := content
    timestamp := env.nowUserMsg }

/-- The targetSession of handleSendMessage, part_000 lines 155-160.  The
lookup reads the stale closure variable sessions, i.e. st.sessions at
call time (the list the component rendered with), even when the creation
branch has already prepended a new session via setSessions. -/
def targetSessionOf (st : AppState) (env : SendEnv) (content : String)
    (activeSessionId : String) : ChatSession :=
  match st.sessions.find? (fun s => s.id == activeSessionId) with
  | some s => s
  | none =>
      { id := activeSessionId, title := jsSlice content 30, messages := []
        updatedAt := env.nowFallback }

/-- The updatedSession of handleSendMessage, part_000 lines 162-167: the
target session with the user message appended, a fresh timestamp, and a
title derived from the content when the target had no messages. -/
def updatedSessionOf (st : AppState) (env : SendEnv) (content : String)
    (activeSessionId : String) : ChatSession :=
  let targetSession := targetSessionOf st env content activeSessionId
  { targetSession with
      messages := targetSession.messages ++ [mkUserMessage env content]
      updatedAt := env.nowUpdate
      title := if targetSession.messages.length == 0 then jsSlice content 30
               else targetSession.title }

/-- The aiMessage of handleSendMessage, part_000 lines 175-180. -/
def mkAiMessage (env : SendEnv) (aiResponseText : String) : Message :=
  { id := env.aiMsgId, role := Role.assistant, content := aiResponseText
    timestamp := env.nowAi }

/-- The finalSession of handleSendMessage, part_000 lines 182-186: the
updated session with the assistant message appended. -/
def finalSessionOf (st : AppState) (env : SendEnv) (content : String)
    (activeSessionId : String) (aiResponseText : String) : ChatSession :=
  let updatedSession := updatedSessionOf st env content activeSessionId
  { updatedSession with
      messages := updatedSession.messages ++ [mkAiMessage env aiResponseText]
      updatedAt := env.nowFinal }

/-- Body of handleSendMessage after the session-existence check, part_000
lines 148-194.  sessions1 is the list after the creation branch (the
functional setSessions updaters at lines 169 and 188 see it); effs1 are
the effects of the creation branch; curId1 is the current id after it.
isLoading is set at line 170 and cleared in the finally block, so the
post-call state has it false on both outcomes. -/
def appendUserAndComplete (st : AppState) (env : SendEnv) (content : String)
    (activeSessionId : String) (sessions1 : List ChatSession)
    (curId1 : Option String) (effs1 : List Effect) : AppState × List Effect :=
  let updatedSession := updatedSessionOf st env content activeSessionId
  let sessions2 :=
    sessions1.map (fun s => if s.id == activeSessionId then updatedSession else s)
  match env.completion with
  | Except.ok aiResponseText =>
      let finalSession := finalSessionOf st env content activeSessionId aiResponseText
      let sessions3 :=
        sessions2.map (fun s => if s.id == activeSessionId then finalSession else s)
      ({ st with sessions := sessions3, currentSessionId := curId1
                 isLoading := false },
       effs1 ++ [Effect.gemini updatedSession.messages content,
                 Effect.save finalSession true])
  | Except.error _ =>
      ({ st with sessions := sessions2, currentSessionId := curId1
                 isLoading := false },
       effs1 ++ [Effect.gemini updatedSession.messages content, Effect.logError])

/-- handleSendMessage, part_000 lines 132-195.  When no session is
current, a session is created first with title slice(0,30) of the content
plus "...", made current, prepended, and its persistence write is
awaited; then the shared tail appendUserAndComplete runs. -/
def handleSendMessage (st : AppState) (env : SendEnv) (content : String) :
    AppState × List Effect :=
  match st.currentSessionId with
  | some id =>
      appendUserAndComplete st env content id st.sessions (some id) []
  | none =>
      let newSession : ChatSession :=
        { id := env.newSessionId, title := jsSlice content 30 ++ "..."
          messages := [], updatedAt := env.nowNewSession }
      appendUserAndComplete st env content env.newSessionId
        (newSession :: st.sessions) (some env.newSessionId)
        [Effect.save newSession true]

/-- First session in a list with the given id, as sessions.find does. -/
def findSession (l : List ChatSession) (id : String) : Option ChatSession :=
  l.find? (fun s => s.id == id)

/-- Message count of the session with the given id, 0 when absent. -/
def msgCount (l : List ChatSession) (id : String) : Nat :=
  match findSession l id with
  | none => 0
  | some s => s.messages.length

/-- Message list of the session with the given id, [] when absent. -/
def sessionMessages (l : List ChatSession) (id : String) : List Message :=
  match findSession l id with
  | none => []
  | some s => s.messages

/-- The id of the session a handleSendMessage call targets: the current
one, else the freshly generated one. -/
def targetSessionId (st : AppState) (env : SendEnv) : String :=
  st.currentSessionId.getD env.newSessionId

/-- The persistence calls in an effect trace, in order, each with its
awaited flag. -/
def saveCalls : List Effect → List (ChatSession × Bool)
  | [] => []
  | Effect.save s b :: rest => (s, b) :: saveCalls rest
  | _ :: rest => saveCalls rest

/-- The completion-client calls in an effect trace, in order, each with
its history and new-content arguments. -/
def geminiCalls : List Effect → List (List Message × String)
  | [] => []
  | Effect.gemini h c :: rest => (h, c) :: geminiCalls rest
  | _ :: rest => geminiCalls rest

/-- A concrete SendEnv used to instantiate theorems with hypotheses. -/
def demoEnv (comp : Except Unit String) : SendEnv :=
  { newSessionId := "sess-1", userMsgId := "msg-u", aiMsgId := "msg-a"
    nowNewSession := 1, nowUserMsg := 2, nowFallback := 3, nowUpdate := 4
    nowAi := 5, nowFinal := 6, completion := comp }

/-- The state of a freshly loaded signed-out app: no sessions, none
current. -/
def emptyState : AppState :=
  { user := none, sessions := [], currentSessionId := none, isLoading := false
    view := AppView.chat }

/-- A concrete prior user message for demo states. -/
def demoMsg : Message :=
  { id := "m0", role := Role.user, content := "hi", timestamp := 0 }

/-- A concrete session holding one prior message. -/
def demoSession : ChatSession :=
  { id := "sess-0", title := "T", messages := [demoMsg], updatedAt := 0 }

/-- A concrete state with one existing, selected session. -/
def oneSessionState : AppState :=
  { user := none, sessions := [demoSession], currentSessionId := some "sess-0"
    isLoading := false, view := AppView.chat }

/-- The session the creation branch of handleSendMessage builds, part_000
lines 137-142. -/
def newSessionOf (env : SendEnv) (content : String) : ChatSession :=
  { id := env.newSessionId, title := jsSlice content 30 ++ "...", messages := []
    updatedAt := env.nowNewSession }

/-! Helper lemmas about the embedding, shared by the claim theorems. -/

theorem findSession_map_replace (l : List ChatSession) (id : String)
    (u : ChatSession) (hu : u.id = id) :
    findSession (l.map (fun s => if s.id == id then u else s)) id
      = (findSession l id).map (fun _ => u) := by
  induction l with
  | nil => rfl
  | cons a rest ih =>
      simp only [findSession] at ih ⊢
      rw [List.map_cons, List.find?_cons, List.find?_cons]
      cases h : (a.id == id) with
      | true => simp [h, hu]
      | false =>
          simp only [show (false = true) = False from by simp, if_false, h]
          exact ih

theorem findSession_cons_self (s : ChatSession) (l : List ChatSession) :
    findSession (s :: l) s.id = some s := by
  simp [findSession, List.find?_cons]

theorem targetSessionOf_found (st : AppState) (env : SendEnv) (content : String)
    (activeId : String) (s : ChatSession)
    (hfind : findSession st.sessions activeId = some s) :
    targetSessionOf st env content activeId = s := by
  simp only [findSession] at hfind
  simp [targetSessionOf, hfind]

theorem targetSessionOf_not_found (st : AppState) (env : SendEnv) (content : String)
    (activeId : String)
    (hfind : findSession st.sessions activeId = none) :
    targetSessionOf st env content activeId
      = { id := activeId, title := jsSlice content 30, messages := []
          updatedAt := env.nowFallback } := by
  simp only [findSession] at hfind
  simp [targetSessionOf, hfind]

theorem targetSessionOf_id (st : AppState) (env : SendEnv) (content : String)
    (activeId : String) :
    (targetSessionOf st env content activeId).id = activeId := by
  cases hfind : findSession st.sessions activeId with
  | none => rw [targetSessionOf_not_found st env content activeId hfind]
  | some s =>
      rw [targetSessionOf_found st env content activeId s hfind]
      simp only [findSession] at hfind
      have hp : (s.id == activeId) = true := by
        simpa using List.find?_some hfind
      exact eq_of_beq hp

theorem updatedSessionOf_id (st : AppState) (env : SendEnv) (content : String)
    (activeId : String) :
    (updatedSessionOf st env content activeId).id = activeId :=
  targetSessionOf_id st env content activeId

theorem finalSessionOf_id (st : AppState) (env : SendEnv) (content : String)
    (activeId : String) (aiText : String) :
    (finalSessionOf st env content activeId aiText).id = activeId :=
  targetSessionOf_id st env content activeId

theorem updatedSessionOf_messages (st : AppState) (env : SendEnv) (content : String)
    (activeId : String) :
    (updatedSessionOf st env content activeId).messages
      = (targetSessionOf st env content activeId).messages
          ++ [mkUserMessage env content] := rfl

theorem finalSessionOf_messages (st : AppState) (env : SendEnv) (content : String)
    (activeId : String) (aiText : String) :
    (finalSessionOf st env content activeId aiText).messages
      = (updatedSessionOf st env content activeId).messages
          ++ [mkAiMessage env aiText] := rfl

theorem updatedSessionOf_title_of_empty (st : AppState) (env : SendEnv)
    (content : String) (activeId : String)
    (h : (targetSessionOf st env content activeId).messages = []) :
    (updatedSessionOf st env content activeId).title = jsSlice content 30 := by
  simp [updatedSessionOf, h]

theorem updatedSessionOf_title_of_nonempty (st : AppState) (env : SendEnv)
    (content : String) (activeId : String)
    (h : (targetSessionOf st env content activeId).messages ≠ []) :
    (updatedSessionOf st env content activeId).title
      = (targetSessionOf st env content activeId).title := by
  have hlen : ((targetSessionOf st env content activeId).messages.length == 0) = false := by
    simpa [List.length_eq_zero] using h
  simp [updatedSessionOf, hlen]

theorem aUC_state_ok (st : AppState) (env : SendEnv) (content : String)
    (activeId : String) (sessions1 : List ChatSession) (curId1 : Option String)
    (effs1 : List Effect) (aiText : String)
    (hok : env.completion = Except.ok aiText) :
    appendUserAndComplete st env content activeId sessions1 curId1 effs1
      = ({ st with
            sessions :=
              (sessions1.map (fun s =>
                  if s.id == activeId then updatedSessionOf st env content activeId
                  else s)).map
                (fun s =>
                  if s.id == activeId then finalSessionOf st env content activeId aiText
                  else s)
            currentSessionId := curId1
            isLoading := false },
         effs1 ++ [Effect.gemini (updatedSessionOf st env content activeId).messages content,
                   Effect.save (finalSessionOf st env content activeId aiText) true]) := by
  simp [appendUserAndComplete, hok]

theorem aUC_state_error (st : AppState) (env : SendEnv) (content : String)
    (activeId : String) (sessions1 : List ChatSession) (curId1 : Option String)
    (effs1 : List Effect) (e : Unit)
    (herr : env.completion = Except.error e) :
    appendUserAndComplete st env content activeId sessions1 curId1 effs1
      = ({ st with
            sessions :=
              sessions1.map (fun s =>
                if s.id == activeId then updatedSessionOf st env content activeId
                else s)
            currentSessionId := curId1
            isLoading := false },
         effs1 ++ [Effect.gemini (updatedSessionOf st env content activeId).messages content,
                   Effect.logError]) := by
  simp [appendUserAndComplete, herr]

theorem handleSendMessage_some (st : AppState) (env : SendEnv) (content : String)
    (id : String) (hcur : st.currentSessionId = some id) :
    handleSendMessage st env content
      = appendUserAndComplete st env content id st.sessions (some id) [] := by
  simp [handleSendMessage, hcur]

theorem handleSendMessage_none (st : AppState) (env : SendEnv) (content : String)
    (hcur : st.currentSessionId = none) :
    handleSendMessage st env content
      = appendUserAndComplete st env content env.newSessionId
          (newSessionOf env content :: st.sessions)
          (some env.newSessionId)
          [Effect.save (newSessionOf env content) true] := by
  simp [handleSendMessage, hcur, newSessionOf]

theorem findSession_newSession (env : SendEnv) (content : String)
    (l : List ChatSession) :
    findSession (newSessionOf env content :: l) env.newSessionId
      = some (newSessionOf env content) :=
  findSession_cons_self (newSessionOf env content) l

theorem findSession_sendMessage_some_ok (st : AppState) (env : SendEnv)
    (content : String) (sess : ChatSession) (id aiText : String)
    (hcur : st.currentSessionId = some id)
    (hfind : findSession st.sessions id = some sess)
    (hok : env.completion = Except.ok aiText) :
    findSession (handleSendMessage st env content).1.sessions id
      = some (finalSessionOf st env content id aiText) := by
  rw [handleSendMessage_some st env content id hcur,
      aUC_state_ok st env content id st.sessions (some id) [] aiText hok]
  dsimp only
  rw [findSession_map_replace _ id _ (finalSessionOf_id st env content id aiText),
      findSession_map_replace _ id _ (updatedSessionOf_id st env content id),
      hfind]
  rfl

theorem findSession_sendMessage_some_error (st : AppState) (env : SendEnv)
    (content : String) (sess : ChatSession) (id : String) (e : Unit)
    (hcur : st.currentSessionId = some id)
    (hfind : findSession st.sessions id = some sess)
    (herr : env.completion = Except.error e) :
    findSession (handleSendMessage st env content).1.sessions id
      = some (updatedSessionOf st env content id) := by
  rw [handleSendMessage_some st env content id hcur,
      aUC_state_error st env content id st.sessions (some id) [] e herr]
  dsimp only
  rw [findSession_map_replace _ id _ (updatedSessionOf_id st env content id), hfind]
  rfl

theorem findSession_sendMessage_none_ok (st : AppState) (env : SendEnv)
    (content : String) (aiText : String)
    (hcur : st.currentSessionId = none)
    (hok : env.completion = Except.ok aiText) :
    findSession (handleSendMessage st env content).1.sessions env.newSessionId
      = some (finalSessionOf st env content env.newSessionId aiText) := by
  rw [handleSendMessage_none st env content hcur,
      aUC_state_ok st env content env.newSessionId
        (newSessionOf env content :: st.sessions) (some env.newSessionId)
        [Effect.save (newSessionOf env content) true] aiText hok]
  dsimp only
  rw [findSession_map_replace _ _ _
        (finalSessionOf_id st env content env.newSessionId aiText),
      findSession_map_replace _ _ _
        (updatedSessionOf_id st env content env.newSessionId),
      findSession_newSession]
  rfl

theorem findSession_sendMessage_none_error (st : AppState) (env : SendEnv)
    (content : String) (e : Unit)
    (hcur : st.currentSessionId = none)
    (herr : env.completion = Except.error e) :
    findSession (handleSendMessage st env content).1.sessions env.newSessionId
      = some (updatedSessionOf st env content env.newSessionId) := by
  rw [handleSendMessage_none st env content hcur,
      aUC_state_error st env content env.newSessionId
        (newSessionOf env content :: st.sessions) (some env.newSessionId)
        [Effect.save (newSessionOf env content) true] e herr]
  dsimp only
  rw [findSession_map_replace _ _ _
        (updatedSessionOf_id st env content env.newSessionId),
      findSession_newSession]
  rfl

theorem sendMessage_trace_some_ok (st : AppState) (env : SendEnv)
    (content : String) (id aiText : String)
    (hcur : st.currentSessionId = some id)
    (hok : env.completion = Except.ok aiText) :
    (handleSendMessage st env content).2
      = [Effect.gemini (updatedSessionOf st env content id).messages content,
         Effect.save (finalSessionOf st env content id aiText) true] := by
  rw [handleSendMessage_some st env content id hcur,
      aUC_state_ok st env content id st.sessions (some id) [] aiText hok]
  rfl

theorem sendMessage_trace_some_error (st : AppState) (env : SendEnv)
    (content : String) (id : String) (e : Unit)
    (hcur : st.currentSessionId = some id)
    (herr : env.completion = Except.error e) :
    (handleSendMessage st env content).2
      = [Effect.gemini (updatedSessionOf st env content id).messages content,
         Effect.logError] := by
  rw [handleSendMessage_some st env content id hcur,
      aUC_state_error st env content id st.sessions (some id) [] e herr]
  rfl

theorem sendMessage_trace_none_ok (st : AppState) (env : SendEnv)
    (content : String) (aiText : String)
    (hcur : st.currentSessionId = none)
    (hok : env.completion = Except.ok aiText) :
    (handleSendMessage st env content).2
      = [Effect.save (newSessionOf env content) true,
         Effect.gemini (updatedSessionOf st env content env.newSessionId).messages content,
         Effect.save (finalSessionOf st env content env.newSessionId aiText) true] := by
  rw [handleSendMessage_none st env content hcur,
      aUC_state_ok st env content env.newSessionId
        (newSessionOf env content :: st.sessions) (some env.newSessionId)
        [Effect.save (newSessionOf env content) true] aiText hok]
  rfl

theorem sendMessage_trace_none_error (st : AppState) (env : SendEnv)
    (content : String) (e : Unit)
    (hcur : st.currentSessionId = none)
    (herr : env.completion = Except.error e) :
    (handleSendMessage st env content).2
      = [Effect.save (newSessionOf env content) true,
         Effect.gemini (updatedSessionOf st env content env.newSessionId).messages content,
         Effect.logError] := by
  rw [handleSendMessage_none st env content hcur,
      aUC_state_error st env content env.newSessionId
        (newSessionOf env content :: st.sessions) (some env.newSessionId)
        [Effect.save (newSessionOf env content) true] e herr]
  rfl

theorem sendMessage_isLoading (st : AppState) (env : SendEnv) (content : String) :
    (handleSendMessage st env content).1.isLoading = false := by
  cases hcur : st.currentSessionId with
  | some id =>
      rw [handleSendMessage_some st env content id hcur]
      cases hc : env.completion with
      | ok a => rw [aUC_state_ok st env content id st.sessions (some id) [] a hc]
      | error e => rw [aUC_state_error st env content id st.sessions (some id) [] e hc]
  | none =>
      rw [handleSendMessage_none st env content hcur]
      cases hc : env.completion with
      | ok a =>
          rw [aUC_state_ok st env content env.newSessionId
                (newSessionOf env content :: st.sessions) (some env.newSessionId)
                [Effect.save (newSessionOf env content) true] a hc]
      | error e =>
          rw [aUC_state_error st env content env.newSessionId
                (newSessionOf env content :: st.sessions) (some env.newSessionId)
                [Effect.save (newSessionOf env content) true] e hc]

theorem sendMessage_currentId_some (st : AppState) (env : SendEnv)
    (content : String) (id : String) (hcur : st.currentSessionId = some id) :
    (handleSendMessage st env content).1.currentSessionId = some id := by
  rw [handleSendMessage_some st env content id hcur]
  cases hc : env.completion with
  | ok a => rw [aUC_state_ok st env content id st.sessions (some id) [] a hc]
  | error e => rw [aUC_state_error st env content id st.sessions (some id) [] e hc]

theorem sendMessage_currentId_none (st : AppState) (env : SendEnv)
    (content : String) (hcur : st.currentSessionId = none) :
    (handleSendMessage st env content).1.currentSessionId = some env.newSessionId := by
  rw [handleSendMessage_none st env content hcur]
  cases hc : env.completion with
  | ok a =>
      rw [aUC_state_ok st env content env.newSessionId
            (newSessionOf env content :: st.sessions) (some env.newSessionId)
            [Effect.save (newSessionOf env content) true] a hc]
  | error e =>
      rw [aUC_state_error st env content env.newSessionId
            (newSessionOf env content :: st.sessions) (some env.newSessionId)
            [Effect.save (newSessionOf env content) true] e hc]

theorem jsSlice_of_le (s : String) (n : Nat) (h : s.length ≤ n) :
    jsSlice s n = s := by
  cases s with
  | mk data =>
      have hd : data.length ≤ n := h
      show String.mk (data.take n) = String.mk data
      rw [List.take_of_length_le hd]

theorem msgCount_eq_some (l : List ChatSession) (id : String) (s : ChatSession)
    (h : findSession l id = some s) : msgCount l id = s.messages.length := by
  simp [msgCount, h]

theorem msgCount_eq_none (l : List ChatSession) (id : String)
    (h : findSession l id = none) : msgCount l id = 0 := by
  simp [msgCount, h]

theorem sessionMessages_eq_some (l : List ChatSession) (id : String)
    (s : ChatSession) (h : findSession l id = some s) :
    sessionMessages l id = s.messages := by
  simp [sessionMessages, h]

theorem sessionMessages_eq_none (l : List ChatSession) (id : String)
    (h : findSession l id = none) : sessionMessages l id = [] := by
  simp [sessionMessages, h]

/-! Claim theorems. -/

/-- C1: the claim predicts that for content longer than 30 characters the
created session's final title is the leading 30 characters followed by an
ellipsis.  At this concrete 31-character content, sent with no session
current, the resulting session list carries the bare 30-character prefix
as title, which differs from the prefix followed by the ellipsis, so the
claim as stated is false on the code. -/
theorem C1_counterexample :
    ((handleSendMessage emptyState (demoEnv (Except.ok "resp"))
        "abcdefghijklmnopqrstuvwxyz01234").1.sessions.map ChatSession.title
      = ["abcdefghijklmnopqrstuvwxyz0123"])
    ∧ ("abcdefghijklmnopqrstuvwxyz0123" : String)
        ≠ jsSlice "abcdefghijklmnopqrstuvwxyz01234" 30 ++ "..." := by
  exact ⟨by decide, by decide⟩

/-- C1 (amended): for a sendMessage with non-empty content when no
session is current and the generated session id is fresh, the created
session's final title is the leading 30 characters of the content with no
ellipsis appended; when the content is at most 30 characters long this
prefix equals the content itself. -/
theorem C1_amended_title (st : AppState) (env : SendEnv) (content : String)
    (hne : content ≠ "") (hcur : st.currentSessionId = none)
    (hfresh : findSession st.sessions env.newSessionId = none) :
    (findSession (handleSendMessage st env content).1.sessions
        env.newSessionId).map ChatSession.title
      = some (jsSlice content 30)
    ∧ (content.length ≤ 30 → jsSlice content 30 = content) := by
  have hempty : (targetSessionOf st env content env.newSessionId).messages = [] := by
    rw [targetSessionOf_not_found st env content env.newSessionId hfresh]
  have htitle := updatedSessionOf_title_of_empty st env content env.newSessionId hempty
  refine ⟨?_, fun h => jsSlice_of_le content 30 h⟩
  cases hc : env.completion with
  | ok a =>
      rw [findSession_sendMessage_none_ok st env content a hcur hc]
      simp [finalSessionOf, htitle]
  | error e =>
      rw [findSession_sendMessage_none_error st env content e hcur hc]
      simp [htitle]

/-- Witness for C1_amended_title at a concrete short content. -/
theorem C1_amended_title_witness :
    (findSession (handleSendMessage emptyState (demoEnv (Except.ok "resp"))
        "hello").1.sessions (demoEnv (Except.ok "resp")).newSessionId).map
        ChatSession.title
      = some (jsSlice "hello" 30)
    ∧ (("hello" : String).length ≤ 30 → jsSlice "hello" 30 = "hello") :=
  C1_amended_title emptyState (demoEnv (Except.ok "resp")) "hello"
    (by decide) rfl rfl

/-- C2: for every sendMessage with non-empty content, assuming the
current session id (when set) denotes a session in the list and the
generated id is fresh when none is current, the target session's message
count grows by exactly 2 when the completion succeeds and by exactly 1
when it fails. -/
theorem C2_message_count_growth (st : AppState) (env : SendEnv)
    (content : String) (hne : content ≠ "")
    (hsome : ∀ id, st.currentSessionId = some id →
        (findSession st.sessions id).isSome = true)
    (hfresh : st.currentSessionId = none →
        findSession st.sessions env.newSessionId = none) :
    msgCount (handleSendMessage st env content).1.sessions (targetSessionId st env)
      = msgCount st.sessions (targetSessionId st env)
        + (if env.completion.isOk then 2 else 1) := by
  cases hcur : st.currentSessionId with
  | some id =>
      obtain ⟨sess, hfind⟩ := Option.isSome_iff_exists.mp (hsome id hcur)
      have htid : targetSessionId st env = id := by simp [targetSessionId, hcur]
      have ht := targetSessionOf_found st env content id sess hfind
      rw [htid]
      cases hc : env.completion with
      | ok a =>
          rw [msgCount_eq_some _ _ _
                (findSession_sendMessage_some_ok st env content sess id a hcur hfind hc),
              msgCount_eq_some _ _ _ hfind,
              finalSessionOf_messages, updatedSessionOf_messages, ht]
          simp [Except.isOk, Except.toBool, List.length_append]
      | error e =>
          rw [msgCount_eq_some _ _ _
                (findSession_sendMessage_some_error st env content sess id e hcur hfind hc),
              msgCount_eq_some _ _ _ hfind,
              updatedSessionOf_messages, ht]
          simp [Except.isOk, Except.toBool, List.length_append]
  | none =>
      have hf := hfresh hcur
      have htid : targetSessionId st env = env.newSessionId := by
        simp [targetSessionId, hcur]
      have hempty : (targetSessionOf st env content env.newSessionId).messages = [] := by
        rw [targetSessionOf_not_found st env content env.newSessionId hf]
      rw [htid]
      cases hc : env.completion with
      | ok a =>
          rw [msgCount_eq_some _ _ _
                (findSession_sendMessage_none_ok st env content a hcur hc),
              msgCount_eq_none _ _ hf,
              finalSessionOf_messages, updatedSessionOf_messages, hempty]
          simp [Except.isOk, Except.toBool, List.length_append]
      | error e =>
          rw [msgCount_eq_some _ _ _
                (findSession_sendMessage_none_error st env content e hcur hc),
              msgCount_eq_none _ _ hf,
              updatedSessionOf_messages, hempty]
          simp [Except.isOk, Except.toBool, List.length_append]

/-- Witness for C2_message_count_growth on an existing selected session
with a succeeding completion. -/
theorem C2_message_count_growth_witness :
    msgCount (handleSendMessage oneSessionState (demoEnv (Except.ok "resp"))
        "more").1.sessions
        (targetSessionId oneSessionState (demoEnv (Except.ok "resp")))
      = msgCount oneSessionState.sessions
          (targetSessionId oneSessionState (demoEnv (Except.ok "resp")))
        + (if (demoEnv (Except.ok "resp")).completion.isOk then 2 else 1) :=
  C2_message_count_growth oneSessionState (demoEnv (Except.ok "resp")) "more"
    (by decide)
    (by intro id h; simp [oneSessionState] at h; subst h; rfl)
    (by intro h; simp [oneSessionState] at h)

/-- C3: when the completion client fails, the target session gains only
the user message; the loading flag is false after every call regardless
of outcome (the finally-equivalent); and no persistence call in the trace
carries an assistant message. -/
theorem C3_failure_behavior (st : AppState) (env : SendEnv) (content : String)
    (e : Unit) (hcomp : env.completion = Except.error e)
    (hsome : ∀ id, st.currentSessionId = some id →
        (findSession st.sessions id).isSome = true)
    (hfresh : st.currentSessionId = none →
        findSession st.sessions env.newSessionId = none) :
    sessionMessages (handleSendMessage st env content).1.sessions
        (targetSessionId st env)
      = sessionMessages st.sessions (targetSessionId st env)
          ++ [mkUserMessage env content]
    ∧ (∀ envAny : SendEnv, ∀ c : String,
        (handleSendMessage st envAny c).1.isLoading = false)
    ∧ (∀ p ∈ saveCalls (handleSendMessage st env content).2,
        ∀ m ∈ p.1.messages, m.role ≠ Role.assistant) := by
  refine ⟨?_, fun envAny c => sendMessage_isLoading st envAny c, ?_⟩
  · cases hcur : st.currentSessionId with
    | some id =>
        obtain ⟨sess, hfind⟩ := Option.isSome_iff_exists.mp (hsome id hcur)
        have htid : targetSessionId st env = id := by simp [targetSessionId, hcur]
        rw [htid,
            sessionMessages_eq_some _ _ _
              (findSession_sendMessage_some_error st env content sess id e hcur hfind hcomp),
            sessionMessages_eq_some _ _ _ hfind,
            updatedSessionOf_messages,
            targetSessionOf_found st env content id sess hfind]
    | none =>
        have hf := hfresh hcur
        have htid : targetSessionId st env = env.newSessionId := by
          simp [targetSessionId, hcur]
        rw [htid,
            sessionMessages_eq_some _ _ _
              (findSession_sendMessage_none_error st env content e hcur hcomp),
            sessionMessages_eq_none _ _ hf,
            updatedSessionOf_messages,
            targetSessionOf_not_found st env content env.newSessionId hf]
  · cases hcur : st.currentSessionId with
    | some id =>
        rw [sendMessage_trace_some_error st env content id e hcur hcomp]
        simp [saveCalls]
    | none =>
        rw [sendMessage_trace_none_error st env content e hcur hcomp]
        simp [saveCalls, newSessionOf]

/-- Witness for C3_failure_behavior on an existing selected session. -/
theorem C3_failure_behavior_witness :
    sessionMessages (handleSendMessage oneSessionState (demoEnv (Except.error ()))
        "more").1.sessions
        (targetSessionId oneSessionState (demoEnv (Except.error ())))
      = sessionMessages oneSessionState.sessions
          (targetSessionId oneSessionState (demoEnv (Except.error ())))
          ++ [mkUserMessage (demoEnv (Except.error ())) "more"]
    ∧ (∀ envAny : SendEnv, ∀ c : String,
        (handleSendMessage oneSessionState envAny c).1.isLoading = false)
    ∧ (∀ p ∈ saveCalls (handleSendMessage oneSessionState
          (demoEnv (Except.error ())) "more").2,
        ∀ m ∈ p.1.messages, m.role ≠ Role.assistant) :=
  C3_failure_behavior oneSessionState (demoEnv (Except.error ())) "more" ()
    rfl
    (by intro id h; simp [oneSessionState] at h; subst h; rfl)
    (by intro h; simp [oneSessionState] at h)

/-- C4: a sendMessage on a selected session that already has messages
leaves its title unchanged, on both completion outcomes. -/
theorem C4_title_invariant (st : AppState) (env : SendEnv) (content : String)
    (sess : ChatSession)
    (hcur : st.currentSessionId = some sess.id)
    (hfind : findSession st.sessions sess.id = some sess)
    (hmsgs : sess.messages ≠ []) :
    (findSession (handleSendMessage st env content).1.sessions sess.id).map
        ChatSession.title = some sess.title := by
  have ht := targetSessionOf_found st env content sess.id sess hfind
  have hnon : (targetSessionOf st env content sess.id).messages ≠ [] := by
    rw [ht]; exact hmsgs
  have htitle := updatedSessionOf_title_of_nonempty st env content sess.id hnon
  cases hc : env.completion with
  | ok a =>
      rw [findSession_sendMessage_some_ok st env content sess sess.id a hcur hfind hc]
      simp [finalSessionOf, htitle, ht]
  | error e =>
      rw [findSession_sendMessage_some_error st env content sess sess.id e hcur hfind hc]
      simp [htitle, ht]

/-- Witness for C4_title_invariant on a session holding one message. -/
theorem C4_title_invariant_witness :
    (findSession (handleSendMessage oneSessionState (demoEnv (Except.ok "resp"))
        "more").1.sessions demoSession.id).map ChatSession.title
      = some demoSession.title :=
  C4_title_invariant oneSessionState (demoEnv (Except.ok "resp")) "more"
    demoSession rfl rfl (by decide)

/-- C5: selectSession sets the current-session identity to the given id
and leaves the session list, hence every message array, untouched. -/
theorem C5_select_session (st : AppState) (id : String)
    (hmem : (findSession st.sessions id).isSome = true) :
    (onSelectSession st id).currentSessionId = some id
    ∧ (onSelectSession st id).sessions = st.sessions :=
  ⟨rfl, rfl⟩

/-- Witness for C5_select_session on an existing session id. -/
theorem C5_select_session_witness :
    (onSelectSession oneSessionState "sess-0").currentSessionId = some "sess-0"
    ∧ (onSelectSession oneSessionState "sess-0").sessions
        = oneSessionState.sessions :=
  C5_select_session oneSessionState "sess-0" rfl

/-- C6: the signed-out branch of onAuthStateChange clears the session
list and the current selection, from every state. -/
theorem C6_signout_clears (st : AppState) :
    (onAuthStateChange st none).sessions = []
    ∧ (onAuthStateChange st none).currentSessionId = none :=
  ⟨rfl, rfl⟩

/-- C7: the claim predicts that every session creation triggers its
persistence write without blocking on the result and uses a placeholder
title.  At this concrete input the implicit creation inside sendMessage
emits a persistence call whose awaited flag is true (the source awaits
it), and titles the session "hi...", not the placeholder "New Chat", so
the claim as stated is false on the code. -/
theorem C7_counterexample :
    ((saveCalls (handleSendMessage emptyState (demoEnv (Except.error ()))
        "hi").2).map (fun p => p.2) = [true])
    ∧ (true : Bool) ≠ false
    ∧ ((saveCalls (handleSendMessage emptyState (demoEnv (Except.error ()))
        "hi").2).map (fun p => p.1.title) = ["hi..."])
    ∧ ("hi..." : String) ≠ "New Chat" := by
  exact ⟨by decide, by decide, by decide, by decide⟩

/-- C7 (amended): handleNewChat creates a session with the given fresh
id, the placeholder title "New Chat", an empty message sequence and the
current timestamp, prepends it to the list, selects it, and fires its
persistence write without awaiting it; the implicit creation inside
sendMessage likewise prepends and selects a session with a fresh id,
empty messages and a current timestamp, but titles it with the leading 30
characters of the content followed by an ellipsis and awaits its
persistence write before continuing. -/
theorem C7_amended_creation (st : AppState) (id : String) (now : Nat)
    (env : SendEnv) (content : String)
    (hcur : st.currentSessionId = none)
    (hfresh : findSession st.sessions env.newSessionId = none) :
    ((handleNewChat st id now).1.sessions
        = { id := id, title := "New Chat", messages := [], updatedAt := now }
            :: st.sessions
      ∧ (handleNewChat st id now).1.currentSessionId = some id
      ∧ (handleNewChat st id now).2
          = [Effect.save
              { id := id, title := "New Chat", messages := [], updatedAt := now }
              false])
    ∧ ((handleSendMessage st env content).2.head?
          = some (Effect.save (newSessionOf env content) true)
        ∧ newSessionOf env content
            = { id := env.newSessionId, title := jsSlice content 30 ++ "..."
                messages := [], updatedAt := env.nowNewSession }
        ∧ (handleSendMessage st env content).1.currentSessionId
            = some env.newSessionId
        ∧ ((handleSendMessage st env content).1.sessions.head?).map ChatSession.id
            = some env.newSessionId) := by
  refine ⟨⟨rfl, rfl, rfl⟩, ?_, rfl,
      sendMessage_currentId_none st env content hcur, ?_⟩
  · cases hc : env.completion with
    | ok a => rw [sendMessage_trace_none_ok st env content a hcur hc]; rfl
    | error e => rw [sendMessage_trace_none_error st env content e hcur hc]; rfl
  · cases hc : env.completion with
    | ok a =>
        rw [handleSendMessage_none st env content hcur,
            aUC_state_ok st env content env.newSessionId
              (newSessionOf env content :: st.sessions) (some env.newSessionId)
              [Effect.save (newSessionOf env content) true] a hc]
        simp [newSessionOf, updatedSessionOf_id, finalSessionOf_id]
    | error e =>
        rw [handleSendMessage_none st env content hcur,
            aUC_state_error st env content env.newSessionId
              (newSessionOf env content :: st.sessions) (some env.newSessionId)
              [Effect.save (newSessionOf env content) true] e hc]
        simp [newSessionOf, updatedSessionOf_id]

/-- Witness for C7_amended_creation at concrete inputs. -/
theorem C7_amended_creation_witness :
    ((handleNewChat emptyState "n1" 7).1.sessions
        = { id := "n1", title := "New Chat", messages := [], updatedAt := 7 }
            :: emptyState.sessions
      ∧ (handleNewChat emptyState "n1" 7).1.currentSessionId = some "n1"
      ∧ (handleNewChat emptyState "n1" 7).2
          = [Effect.save
              { id := "n1", title := "New Chat", messages := [], updatedAt := 7 }
              false])
    ∧ ((handleSendMessage emptyState (demoEnv (Except.ok "resp")) "hello").2.head?
          = some (Effect.save (newSessionOf (demoEnv (Except.ok "resp")) "hello") true)
        ∧ newSessionOf (demoEnv (Except.ok "resp")) "hello"
            = { id := (demoEnv (Except.ok "resp")).newSessionId
                title := jsSlice "hello" 30 ++ "..."
                messages := []
                updatedAt := (demoEnv (Except.ok "resp")).nowNewSession }
        ∧ (handleSendMessage emptyState (demoEnv (Except.ok "resp"))
              "hello").1.currentSessionId
            = some (demoEnv (Except.ok "resp")).newSessionId
        ∧ ((handleSendMessage emptyState (demoEnv (Except.ok "resp"))
              "hello").1.sessions.head?).map ChatSession.id
            = some (demoEnv (Except.ok "resp")).newSessionId) :=
  C7_amended_creation emptyState "n1" 7 (demoEnv (Except.ok "resp")) "hello"
    rfl rfl

/-- C8: the claim predicts the completion client receives only the prior
turns plus the new text; at this concrete input with one prior message
the history argument it receives is the prior turn with the new user
message appended, which differs from the prior turn alone, so the claim
as stated is false on the code. -/
theorem C8_counterexample :
    ((geminiCalls (handleSendMessage oneSessionState (demoEnv (Except.ok "resp"))
        "next").2).map (fun p => p.1)
      = [[demoMsg, mkUserMessage (demoEnv (Except.ok "resp")) "next"]])
    ∧ [demoMsg, mkUserMessage (demoEnv (Except.ok "resp")) "next"] ≠ [demoMsg] := by
  exact ⟨by decide, by decide⟩

/-- C8 (amended): on every sendMessage the completion client is invoked
exactly once, and its history argument is the target session's prior
message history with the new user message already appended, passed
together with the new content. -/
theorem C8_amended_completion_input (st : AppState) (env : SendEnv)
    (content : String) (hne : content ≠ "")
    (hsome : ∀ id, st.currentSessionId = some id →
        (findSession st.sessions id).isSome = true)
    (hfresh : st.currentSessionId = none →
        findSession st.sessions env.newSessionId = none) :
    geminiCalls (handleSendMessage st env content).2
      = [(sessionMessages st.sessions (targetSessionId st env)
            ++ [mkUserMessage env content], content)] := by
  cases hcur : st.currentSessionId with
  | some id =>
      obtain ⟨sess, hfind⟩ := Option.isSome_iff_exists.mp (hsome id hcur)
      have htid : targetSessionId st env = id := by simp [targetSessionId, hcur]
      rw [htid, sessionMessages_eq_some _ _ _ hfind]
      cases hc : env.completion with
      | ok a =>
          rw [sendMessage_trace_some_ok st env content id a hcur hc]
          simp [geminiCalls, updatedSessionOf_messages,
                targetSessionOf_found st env content id sess hfind]
      | error e =>
          rw [sendMessage_trace_some_error st env content id e hcur hc]
          simp [geminiCalls, updatedSessionOf_messages,
                targetSessionOf_found st env content id sess hfind]
  | none =>
      have hf := hfresh hcur
      have htid : targetSessionId st env = env.newSessionId := by
        simp [targetSessionId, hcur]
      rw [htid, sessionMessages_eq_none _ _ hf]
      cases hc : env.completion with
      | ok a =>
          rw [sendMessage_trace_none_ok st env content a hcur hc]
          simp [geminiCalls, updatedSessionOf_messages,
                targetSessionOf_not_found st env content env.newSessionId hf]
      | error e =>
          rw [sendMessage_trace_none_error st env content e hcur hc]
          simp [geminiCalls, updatedSessionOf_messages,
                targetSessionOf_not_found st env content env.newSessionId hf]

/-- Witness for C8_amended_completion_input on an existing selected
session with a succeeding completion. -/
theorem C8_amended_completion_input_witness :
    geminiCalls (handleSendMessage oneSessionState (demoEnv (Except.ok "resp"))
        "next").2
      = [(sessionMessages oneSessionState.sessions
            (targetSessionId oneSessionState (demoEnv (Except.ok "resp")))
            ++ [mkUserMessage (demoEnv (Except.ok "resp")) "next"], "next")] :=
  C8_amended_completion_input oneSessionState (demoEnv (Except.ok "resp")) "next"
    (by decide)
    (by intro id h; simp [oneSessionState] at h; subst h; rfl)
    (by intro h; simp [oneSessionState] at h)

/-- C9: after a successful fetch of a non-empty session list while no
session is selected, the first fetched session becomes current and the
list is replaced by the fetched one; a failed fetch leaves the state
unchanged. -/
theorem C9_fetch_behavior (st : AppState) (d : ChatSession)
    (rest : List ChatSession) (e : Unit)
    (hnone : st.currentSessionId = none) :
    (fetchSessions st (Except.ok (d :: rest))).currentSessionId = some d.id
    ∧ (fetchSessions st (Except.ok (d :: rest))).sessions = d :: rest
    ∧ fetchSessions st (Except.error e) = st := by
  refine ⟨?_, ?_, rfl⟩
  · simp [fetchSessions, isFalsyId, hnone]
  · simp [fetchSessions, isFalsyId, hnone]

/-- Witness for C9_fetch_behavior from the empty signed-out state. -/
theorem C9_fetch_behavior_witness :
    (fetchSessions emptyState (Except.ok [demoSession])).currentSessionId
        = some demoSession.id
    ∧ (fetchSessions emptyState (Except.ok [demoSession])).sessions
        = [demoSession]
    ∧ fetchSessions emptyState (Except.error ()) = emptyState :=
  C9_fetch_behavior emptyState demoSession [] () rfl

/-- C10: when the completion fails, a call with a session current emits
no persistence call at all, and a call with none current emits exactly
one persistence call, the creation write, whose session carries an empty
message sequence. -/
theorem C10_no_persist_on_failure (st : AppState) (env : SendEnv)
    (content : String) (e : Unit)
    (hcomp : env.completion = Except.error e) :
    (∀ id, st.currentSessionId = some id →
        saveCalls (handleSendMessage st env content).2 = [])
    ∧ (st.currentSessionId = none →
        (saveCalls (handleSendMessage st env content).2).map (fun p => p.1.messages)
          = [[]]) := by
  constructor
  · intro id hcur
    rw [sendMessage_trace_some_error st env content id e hcur hcomp]
    rfl
  · intro hcur
    rw [sendMessage_trace_none_error st env content e hcur hcomp]
    simp [saveCalls, newSessionOf]

/-- Witness for C10_no_persist_on_failure on an existing selected
session. -/
theorem C10_no_persist_on_failure_witness :
    (∀ id, oneSessionState.currentSessionId = some id →
        saveCalls (handleSendMessage oneSessionState (demoEnv (Except.error ()))
          "more").2 = [])
    ∧ (oneSessionState.currentSessionId = none →
        (saveCalls (handleSendMessage oneSessionState (demoEnv (Except.error ()))
          "more").2).map (fun p => p.1.messages) = [[]]) :=
  C10_no_persist_on_failure oneSessionState (demoEnv (Except.error ())) "more" ()
    rfl

end ChatApp
